import Mathlib

/-!
Verification development for the `nftopia-stellar` marketplace settlement
contract.  The Rust sources (`settlement_core.rs`, `atomic_swap.rs`,
`royalty_distributor.rs`) are embedded shallowly: Soroban storage becomes an
explicit `Env` record threaded through every operation, Soroban `Map`s become
association lists, `u64` values become `Nat`, `i128` values become `Int` with
explicit bounds where the code checks them, and fallible operations return
`Except SettlementError`.  External capabilities (asset transfers, NFT
ownership checks, fee computation) that live in files not present here are
modelled as oracle fields of `Env`, each marked `Modelled from the spec:`.
-/

namespace NFTopia

set_option maxRecDepth 8000

/-- Soroban `Address`, modelled as a natural number identifier. -/
abbrev Address := Nat

/-- `i128::MIN` as an integer. -/
def I128_MIN : Int := -(2 ^ 127)

/-- `i128::MAX` as an integer. -/
def I128_MAX : Int := 2 ^ 127 - 1

/-- `2^64`, the modulus of `u64` arithmetic. -/
def U64_MOD : Nat := 2 ^ 64

/-- `types::Asset` — a token or NFT collection identifier (contract, symbol). -/
structure Asset where
  contract : Address
  symbol : String
deriving DecidableEq, Repr

/-- Modelled from the spec: `error::SettlementError` (the file `error.rs` is not
among the sources); the error taxonomy of spec section 7. -/
inductive SettlementError where
  | Unauthorized
  | NotFound
  | InvalidState
  | Expired
  | InvalidAmount
  | InvalidRoyaltyPercentage
  | InsufficientFunds
  | Reentrant
deriving DecidableEq, Repr

/-- `atomic_swap::SwapState`. -/
inductive SwapState where
  | Pending
  | SellerFunded
  | BuyerFunded
  | Ready
  | Executed
  | Failed
deriving DecidableEq, Repr

/-- Modelled from the spec: `types::TransactionState` (the file `types.rs` is
not among the sources); the states named in spec section 3. -/
inductive TransactionState where
  | Pending
  | Funded
  | Executed
  | Cancelled
deriving DecidableEq, Repr

/-- `atomic_swap::EscrowHolding`. -/
structure EscrowHolding where
  transaction_id : Nat
  holder : Address
  asset : Asset
  amount : Int
  is_nft : Bool
  deposited_at : Nat
  released_at : Option Nat
deriving DecidableEq, Repr

/-- `atomic_swap::AtomicSwap`. -/
structure AtomicSwap where
  swap_id : Nat
  transaction_id : Nat
  seller_escrow : List EscrowHolding
  buyer_escrow : List EscrowHolding
  state : SwapState
  created_at : Nat
  executed_at : Option Nat
deriving DecidableEq, Repr

/-- `royalty_distributor::RoyaltyInfo`. -/
structure RoyaltyInfo where
  nft_contract : Address
  token_id : Nat
  creator : Address
  royalty_percentage : Nat
  last_updated : Nat
deriving DecidableEq, Repr

/-- Modelled from the spec: `types::RoyaltyDistribution` (the file `types.rs`
is not among the sources); fields as used by `royalty_distributor.rs` and spec
section 3.  The Soroban `Map<Address, i128>` of per-recipient amounts is an
association list iterated in list order. -/
structure RoyaltyDistribution where
  creator_address : Address
  creator_percentage : Nat
  seller_percentage : Nat
  platform_percentage : Nat
  total_amount : Int
  amounts : List (Address × Int)
deriving DecidableEq, Repr

/-- Modelled from the spec: `types::DistributionResult` (the file `types.rs` is
not among the sources); fields as constructed by
`RoyaltyDistributor::distribute_royalties`. -/
structure DistributionResult where
  transaction_id : Nat
  total_amount : Int
  creator_amount : Int
  seller_amount : Int
  platform_amount : Int
  distribution_success : Bool
  timestamp : Nat
deriving DecidableEq, Repr

/-- Modelled from the spec: `types::ExecutionResult` (the file `types.rs` is
not among the sources); fields as constructed by
`AtomicSwapEngine::execute_swap`. -/
structure ExecutionResult where
  transaction_id : Nat
  success : Bool
  transferred_nft : Bool
  transferred_payment : Bool
  distributed_royalties : Bool
  collected_platform_fee : Bool
  timestamp : Nat
deriving DecidableEq, Repr

/-- Modelled from the spec: `types::VolumeTier` (fee volume-discount tier,
spec section 4.3). -/
structure VolumeTier where
  min_volume : Int
  fee_discount_bps : Nat
deriving DecidableEq, Repr

/-- Modelled from the spec: `types::FeeConfig` (the file `types.rs` is not
among the sources); fields as constructed by
`MarketplaceSettlement::initialize` and spec section 3. -/
structure FeeConfig where
  platform_fee_bps : Nat
  minimum_fee : Int
  maximum_fee : Int
  fee_recipient : Address
  dynamic_fee_enabled : Bool
  volume_discounts : List VolumeTier
  vip_exemptions : List Address
deriving DecidableEq, Repr

/-- Modelled from the spec: `types::AdminConfig` (the file `types.rs` is not
among the sources); fields as constructed by
`MarketplaceSettlement::initialize`. -/
structure AdminConfig where
  admin : Address
  emergency_withdrawal_enabled : Bool
  max_transaction_duration : Nat
  max_auction_duration : Nat
  min_bid_increment_bps : Nat
  max_royalty_percentage : Nat
  dispute_cooling_period : Nat
  arbitration_quorum : Nat
deriving DecidableEq, Repr

/-- Modelled from the spec: `types::SaleTransaction` (the file `types.rs` is
not among the sources); fields as constructed by
`MarketplaceSettlement::create_sale`. -/
structure SaleTransaction where
  transaction_id : Nat
  seller : Address
  buyer : Option Address
  nft_address : Address
  token_id : Nat
  price : Int
  currency : Asset
  state : TransactionState
  created_at : Nat
  expires_at : Nat
  escrow_address : Address
  royalty_info : RoyaltyDistribution
  platform_fee : Int
deriving DecidableEq, Repr

/-- A recorded invocation of the external asset-transfer capability
(`asset_utils::transfer_nft` / `transfer_tokens`): contract, source, destination,
amount (token id for NFTs), NFT flag. -/
structure Transfer where
  contract : Address
  source : Address
  dest : Address
  amount : Int
  is_nft : Bool
deriving DecidableEq, Repr

/-- The contract's persistent storage and host environment.  Storage slots
mirror the Soroban instance storage used by the three source files; an absent
`Map` slot behaves exactly like an empty one in every code path embedded here,
so maps are plain association lists.  The trailing function fields are oracles
for the external capabilities the spec lists as collaborators (asset transfer
outcomes, input validation, NFT ownership, fee computation, accumulated fees). -/
structure Env where
  timestamp : Nat
  contractAddress : Address
  swaps : List (Nat × AtomicSwap)
  nextSwap : Nat
  royaltyConfigs : List (List Nat × RoyaltyInfo)
  sales : List (Nat × SaleTransaction)
  nextSaleId : Nat
  adminConfig : Option AdminConfig
  feeConfig : Option FeeConfig
  guards : List (Address × String)
  transfers : List Transfer
  transferOk : Address → Address → Address → Int → Bool → Bool
  assetValid : Asset → Bool
  nftContractValid : Address → Bool
  ownsNft : Address → Nat → Address → Bool
  calcFee : Int → Address → Int
  accFees : Address → Int

/-- Lookup in an association-list map (Soroban `Map::get`). -/
def kget {κ α : Type} [DecidableEq κ] (m : List (κ × α)) (k : κ) : Option α :=
  (m.find? (fun p => decide (p.1 = k))).map Prod.snd

/-- Update in an association-list map (Soroban `Map::set`): replace the first
entry with the key, else append.  Swap ids and sale ids are allocated from a
monotone counter, so appended entries keep the map in ascending-key order, the
order in which a Soroban `Map` iterates. -/
def kset {κ α : Type} [DecidableEq κ] (m : List (κ × α)) (k : κ) (v : α) :
    List (κ × α) :=
  match m with
  | [] => [(k, v)]
  | (k', v') :: t => if k' = k then (k, v) :: t else (k', v') :: kset t k v

theorem kget_kset_self {κ α : Type} [DecidableEq κ] (m : List (κ × α)) (k : κ)
    (v : α) : kget (kset m k v) k = some v := by
  induction m with
  | nil => simp [kget, kset]
  | cons h t ih =>
    by_cases hk : h.1 = k
    · simp [kget, kset, hk]
    · simpa [kget, kset, hk, Ne.symm hk] using ih

theorem kget_kset_ne {κ α : Type} [DecidableEq κ] (m : List (κ × α)) (k k' : κ)
    (v : α) (h : k ≠ k') : kget (kset m k v) k' = kget m k' := by
  induction m with
  | nil => simp [kget, kset, h]
  | cons hd t ih =>
    by_cases hk : hd.1 = k
    · simp [kget, kset, hk, h]
    · simp only [kset, hk, if_false]
      by_cases hk' : hd.1 = k'
      · simp [kget, hk']
      · simpa [kget, hk'] using ih

/-- When no entry of `m` satisfies the predicate, `find?` on `kset m k v`
finds `(k, v)` exactly when it satisfies the predicate. -/
theorem find?_kset_of_none {κ α : Type} [DecidableEq κ]
    (m : List (κ × α)) (k : κ) (v : α) (q : κ × α → Bool)
    (hm : ∀ p ∈ m, q p = false) (hq : q (k, v) = true) :
    (kset m k v).find? q = some (k, v) := by
  induction m with
  | nil => simp [kset, hq]
  | cons hd t ih =>
    have hhd : q hd = false := hm hd (List.mem_cons_self hd t)
    by_cases hk : hd.1 = k
    · simp [kset, hk, List.find?, hq]
    · have ih' := ih (fun p hp => hm p (List.mem_cons_of_mem hd hp))
      simp [kset, hk, List.find?, hhd, ih']

/-- Replacing the entry that `find?` returns (keys distinct, replacement still
matching) leaves it the entry that `find?` returns. -/
theorem find?_kset_of_found {κ α : Type} [DecidableEq κ]
    (m : List (κ × α)) (k : κ) (s s' : α) (q : κ × α → Bool)
    (hnd : (m.map Prod.fst).Nodup)
    (hf : m.find? q = some (k, s)) (hq : q (k, s') = true) :
    (kset m k s').find? q = some (k, s') := by
  induction m with
  | nil => simp at hf
  | cons hd t ih =>
    by_cases hhd : q hd = true
    · rw [List.find?_cons_of_pos _ hhd] at hf
      obtain rfl : hd = (k, s) := by injection hf
      simp [kset, List.find?, hq]
    · have hhd' : q hd = false := by
        cases hv : q hd with
        | true => exact absurd hv hhd
        | false => rfl
      rw [List.find?_cons_of_neg _ (by simp [hhd'])] at hf
      have hnd' : hd.1 ∉ t.map Prod.fst ∧ (t.map Prod.fst).Nodup := by
        rw [List.map_cons] at hnd
        exact List.nodup_cons.mp hnd
      have hkmem : k ∈ t.map Prod.fst := by
        have := List.mem_of_find?_eq_some hf
        exact List.mem_map_of_mem Prod.fst this
      have hne : hd.1 ≠ k := fun he => hnd'.1 (he ▸ hkmem)
      have ih' := ih hnd'.2 hf
      simp [kset, hne, List.find?, hhd', ih']

namespace math_utils

/-- Modelled from the spec: `utils::math_utils::safe_add` (the file `utils.rs`
is not among the sources).  Spec section 2 calls the math utilities
"saturating/checked" arithmetic and section 7 files arithmetic/bounds
violations under `InvalidAmount`: checked `i128` addition, failing with
`InvalidAmount` when the exact sum leaves the `i128` range. -/
def safe_add (a b : Int) : Except SettlementError Int :=
  if I128_MIN ≤ a + b ∧ a + b ≤ I128_MAX then .ok (a + b)
  else .error .InvalidAmount

/-- Clamp an integer into the `i128` range (saturation). -/
def clampI128 (x : Int) : Int := max I128_MIN (min I128_MAX x)

/-- Modelled from the spec: `utils::math_utils::calculate_percentage` (the file
`utils.rs` is not among the sources).  Spec section 4.2:
`amount * bps / 10000` "using saturating integer arithmetic"; division
truncates toward zero as in Rust. -/
def calculate_percentage (amount : Int) (bps : Nat) : Int :=
  Int.tdiv (clampI128 (amount * bps)) 10000

end math_utils

namespace asset_utils

/-- Modelled from the spec: `utils::asset_utils::transfer_tokens` (the file
`utils.rs` is not among the sources) — the external "move asset from X to Y, or
fail" capability of spec sections 1 and 6.  The oracle `Env.transferOk` decides
success; a successful call is recorded on the transfer log, a failed one fails
atomically with no effect. -/
def transfer_tokens (env : Env) (contract source dest : Address) (amount : Int) :
    Except SettlementError Unit × Env :=
  if env.transferOk contract source dest amount false then
    (.ok (), { env with
      transfers := env.transfers ++ [⟨contract, source, dest, amount, false⟩] })
  else (.error .InsufficientFunds, env)

/-- Modelled from the spec: `utils::asset_utils::transfer_nft`, as
`transfer_tokens` but for an NFT unit identified by its token id. -/
def transfer_nft (env : Env) (contract source dest : Address) (token_id : Nat) :
    Except SettlementError Unit × Env :=
  if env.transferOk contract source dest (token_id : Int) true then
    (.ok (), { env with
      transfers := env.transfers ++ [⟨contract, source, dest, (token_id : Int), true⟩] })
  else (.error .InsufficientFunds, env)

end asset_utils

namespace ReentrancyGuard

/-- Remove the first occurrence of a guard marker. -/
def removeGuard (l : List (Address × String)) (x : Address × String) :
    List (Address × String) :=
  match l with
  | [] => []
  | h :: t => if h = x then t else h :: removeGuard t x

/-- Modelled from the spec: `security::reentrancy_guard::ReentrancyGuard::execute`
(the file is not among the sources).  Spec section 5: record an in-flight
marker per (caller, operation) before delegating and clear it on every exit
path; a nested call with the same key while the marker is set fails fast with
`Reentrant`. -/
def execute {α : Type} (env : Env) (caller : Address) (op : String)
    (f : Env → Except SettlementError α × Env) :
    Except SettlementError α × Env :=
  if (caller, op) ∈ env.guards then (.error .Reentrant, env)
  else
    let r := f { env with guards := (caller, op) :: env.guards }
    (r.1, { r.2 with guards := removeGuard r.2.guards (caller, op) })

end ReentrancyGuard

namespace AtomicSwapEngine

/-- `AtomicSwapEngine::next_swap_id`: return the stored counter (initially 1)
and store its successor. -/
def next_swap_id (env : Env) : Nat × Env :=
  (env.nextSwap, { env with nextSwap := env.nextSwap + 1 })

/-- `AtomicSwapEngine::store_swap`: write the swap into the swap map keyed by
`swap_id` (the Rust function always returns `Ok`). -/
def store_swap (env : Env) (swap : AtomicSwap) : Env :=
  { env with swaps := kset env.swaps swap.swap_id swap }

/-- `AtomicSwapEngine::get_swap_by_transaction`: linear scan over the swap map
in ascending-key order for the first swap carrying the transaction id. -/
def get_swap_by_transaction (env : Env) (transaction_id : Nat) :
    Except SettlementError AtomicSwap :=
  match env.swaps.find? (fun p => decide (p.2.transaction_id = transaction_id)) with
  | some p => .ok p.2
  | none => .error .NotFound

/-- `AtomicSwapEngine::initialize_swap`: allocate a swap id, create the two
escrow legs — the NFT leg held by the seller, the payment leg held by the
`buyer` argument — in state `Pending`, and store the swap.  Both holdings are
created with `deposited_at` set to the current ledger timestamp. -/
def initialize_swap (env : Env) (transaction_id : Nat) (seller buyer : Address)
    (nft_address : Address) (token_id : Nat) (payment_asset : Asset)
    (payment_amount : Int) : Except SettlementError Nat × Env :=
  let idEnv := next_swap_id env
  let swap : AtomicSwap :=
    { swap_id := idEnv.1
      transaction_id := transaction_id
      seller_escrow := [{ transaction_id := transaction_id
                          holder := seller
                          asset := { contract := nft_address, symbol := "NFT" }
                          amount := (token_id : Int)
                          is_nft := true
                          deposited_at := env.timestamp
                          released_at := none }]
      buyer_escrow := [{ transaction_id := transaction_id
                         holder := buyer
                         asset := payment_asset
                         amount := payment_amount
                         is_nft := false
                         deposited_at := env.timestamp
                         released_at := none }]
      state := .Pending
      created_at := env.timestamp
      executed_at := none }
  (.ok idEnv.1, store_swap idEnv.2 swap)

/-- `AtomicSwapEngine::transfer_to_escrow`: move the asset from the depositor
into the contract's custody, NFT or token according to the flag. -/
def transfer_to_escrow (env : Env) (source : Address) (asset : Asset)
    (amount : Int) (is_nft : Bool) : Except SettlementError Unit × Env :=
  if is_nft then
    asset_utils.transfer_nft env asset.contract source env.contractAddress amount.toNat
  else
    asset_utils.transfer_tokens env asset.contract source env.contractAddress amount

/-- `AtomicSwapEngine::transfer_from_escrow`: move the asset from the
contract's custody to the recipient. -/
def transfer_from_escrow (env : Env) (dest : Address) (asset : Asset)
    (amount : Int) (is_nft : Bool) : Except SettlementError Unit × Env :=
  if is_nft then
    asset_utils.transfer_nft env asset.contract env.contractAddress dest amount.toNat
  else
    asset_utils.transfer_tokens env asset.contract env.contractAddress dest amount

/-- The loop of `AtomicSwapEngine::update_escrow_holding` over one escrow list:
stamp `deposited_at` on the first holding whose holder is the depositor and
whose asset contract matches, then stop. -/
def stamp_first (holdings : List EscrowHolding) (depositor : Address)
    (contract : Address) (ts : Nat) : List EscrowHolding :=
  match holdings with
  | [] => []
  | h :: t =>
    if h.holder = depositor ∧ h.asset.contract = contract then
      { h with deposited_at := ts } :: t
    else h :: stamp_first t depositor contract ts

/-- `AtomicSwapEngine::update_escrow_holding`: stamp the matching holding on
the seller side and on the buyer side (the amount and NFT flag are unused in
the source). -/
def update_escrow_holding (env : Env) (swap : AtomicSwap) (depositor : Address)
    (asset : Asset) (_amount : Int) (_is_nft : Bool) : AtomicSwap :=
  { swap with
    seller_escrow := stamp_first swap.seller_escrow depositor asset.contract env.timestamp
    buyer_escrow := stamp_first swap.buyer_escrow depositor asset.contract env.timestamp }

/-- `AtomicSwapEngine::update_swap_state`: recompute the aggregate state from
the `deposited_at` stamps of the two legs. -/
def update_swap_state (swap : AtomicSwap) : AtomicSwap :=
  let seller_funded := swap.seller_escrow.all (fun h => decide (0 < h.deposited_at))
  let buyer_funded := swap.buyer_escrow.all (fun h => decide (0 < h.deposited_at))
  match seller_funded, buyer_funded with
  | true, false => { swap with state := .SellerFunded }
  | false, true => { swap with state := .BuyerFunded }
  | true, true => { swap with state := .Ready }
  | false, false => { swap with state := .Pending }

/-- `AtomicSwapEngine::deposit_to_escrow`: find the swap by transaction id,
authorize the depositor against the recorded holdings, transfer the asset into
custody, stamp the holding, recompute the state and store the swap. -/
def deposit_to_escrow (env : Env) (transaction_id : Nat) (depositor : Address)
    (asset : Asset) (amount : Int) (is_nft : Bool) :
    Except SettlementError Unit × Env :=
  match get_swap_by_transaction env transaction_id with
  | .error e => (.error e, env)
  | .ok swap =>
    let is_seller_deposit :=
      swap.seller_escrow.any (fun h => decide (h.holder = depositor ∧ h.asset = asset))
    let is_buyer_deposit :=
      swap.buyer_escrow.any (fun h => decide (h.holder = depositor ∧ h.asset = asset))
    if !is_seller_deposit && !is_buyer_deposit then (.error .Unauthorized, env)
    else
      match transfer_to_escrow env depositor asset amount is_nft with
      | (.error e, env1) => (.error e, env1)
      | (.ok _, env1) =>
        let swap1 := update_escrow_holding env1 swap depositor asset amount is_nft
        let swap2 := update_swap_state swap1
        (.ok (), store_swap env1 swap2)

/-- First loop of `AtomicSwapEngine::perform_atomic_swap`: for every NFT
holding of the seller escrow, transfer it from custody to the holder recorded
on the first buyer-escrow holding. -/
def perform_seller_leg (env : Env) (swap : AtomicSwap)
    (holdings : List EscrowHolding) : Except SettlementError Unit × Env :=
  match holdings with
  | [] => (.ok (), env)
  | h :: t =>
    if h.is_nft then
      match swap.buyer_escrow.head? with
      | some bh =>
        match transfer_from_escrow env bh.holder h.asset h.amount h.is_nft with
        | (.error e, env1) => (.error e, env1)
        | (.ok _, env1) => perform_seller_leg env1 swap t
      | none => perform_seller_leg env swap t
    else perform_seller_leg env swap t

/-- Second loop of `AtomicSwapEngine::perform_atomic_swap`: for every non-NFT
holding of the buyer escrow, transfer it from custody to the holder recorded
on the first seller-escrow holding. -/
def perform_buyer_leg (env : Env) (swap : AtomicSwap)
    (holdings : List EscrowHolding) : Except SettlementError Unit × Env :=
  match holdings with
  | [] => (.ok (), env)
  | h :: t =>
    if !h.is_nft then
      match swap.seller_escrow.head? with
      | some sh =>
        match transfer_from_escrow env sh.holder h.asset h.amount h.is_nft with
        | (.error e, env1) => (.error e, env1)
        | (.ok _, env1) => perform_buyer_leg env1 swap t
      | none => perform_buyer_leg env swap t
    else perform_buyer_leg env swap t

/-- `AtomicSwapEngine::perform_atomic_swap`: the NFT leg goes to the holder of
the first buyer-escrow holding, the payment leg to the holder of the first
seller-escrow holding. -/
def perform_atomic_swap (env : Env) (swap : AtomicSwap) :
    Except SettlementError Unit × Env :=
  match perform_seller_leg env swap swap.seller_escrow with
  | (.error e, env1) => (.error e, env1)
  | (.ok _, env1) => perform_buyer_leg env1 swap swap.buyer_escrow

/-- `AtomicSwapEngine::execute_swap` (wrapped in the reentrancy guard):
require state `Ready` (else `InvalidState`), perform the atomic swap, mark the
swap `Executed` and store it. -/
def execute_swap (env : Env) (transaction_id : Nat) (executor : Address) :
    Except SettlementError ExecutionResult × Env :=
  ReentrancyGuard.execute env executor "execute_swap" (fun env =>
    match get_swap_by_transaction env transaction_id with
    | .error e => (.error e, env)
    | .ok swap =>
      if swap.state ≠ SwapState.Ready then (.error .InvalidState, env)
      else
        match perform_atomic_swap env swap with
        | (.error e, env1) => (.error e, env1)
        | (.ok _, env1) =>
          let swap1 := { swap with
                         state := SwapState.Executed
                         executed_at := some env1.timestamp }
          (.ok { transaction_id := transaction_id
                 success := true
                 transferred_nft := true
                 transferred_payment := true
                 distributed_royalties := true
                 collected_platform_fee := true
                 timestamp := env1.timestamp }, store_swap env1 swap1))

/-- The refund loop of `AtomicSwapEngine::refund_escrow_holdings` over one
escrow list: transfer every holding from custody back to its recorded holder. -/
def refund_leg (env : Env) (holdings : List EscrowHolding) :
    Except SettlementError Unit × Env :=
  match holdings with
  | [] => (.ok (), env)
  | h :: t =>
    match transfer_from_escrow env h.holder h.asset h.amount h.is_nft with
    | (.error e, env1) => (.error e, env1)
    | (.ok _, env1) => refund_leg env1 t

/-- `AtomicSwapEngine::refund_escrow_holdings`: refund the seller escrow, then
the buyer escrow. -/
def refund_escrow_holdings (env : Env) (swap : AtomicSwap) :
    Except SettlementError Unit × Env :=
  match refund_leg env swap.seller_escrow with
  | (.error e, env1) => (.error e, env1)
  | (.ok _, env1) => refund_leg env1 swap.buyer_escrow

/-- `AtomicSwapEngine::cancel_swap`: only an escrow party may cancel; refund
every holding, set state `Failed` and store the swap. -/
def cancel_swap (env : Env) (transaction_id : Nat) (canceller : Address) :
    Except SettlementError Unit × Env :=
  match get_swap_by_transaction env transaction_id with
  | .error e => (.error e, env)
  | .ok swap =>
    let is_authorized :=
      swap.seller_escrow.any (fun h => decide (h.holder = canceller)) ||
      swap.buyer_escrow.any (fun h => decide (h.holder = canceller))
    if !is_authorized then (.error .Unauthorized, env)
    else
      match refund_escrow_holdings env swap with
      | (.error e, env1) => (.error e, env1)
      | (.ok _, env1) => (.ok (), store_swap env1 { swap with state := .Failed })

/-- `AtomicSwapEngine::emergency_withdraw`: look the swap up, refund every
holding and emit an event; the stored swap record is never modified. -/
def emergency_withdraw (env : Env) (transaction_id : Nat) (_admin : Address)
    (_reason : List Nat) : Except SettlementError Unit × Env :=
  match get_swap_by_transaction env transaction_id with
  | .error e => (.error e, env)
  | .ok swap =>
    match refund_escrow_holdings env swap with
    | (.error e, env1) => (.error e, env1)
    | (.ok _, env1) => (.ok (), env1)

end AtomicSwapEngine

namespace RoyaltyDistributor

/-- `RoyaltyDistributor::make_royalty_key`: the source builds the storage key
from neither argument — it returns a fresh empty `Bytes` value for every
(nft contract, token id) pair. -/
def make_royalty_key (_nft_contract : Address) (_token_id : Nat) : List Nat :=
  []

/-- `RoyaltyDistributor::store_royalty_info`: write the info into the royalty
config map under `make_royalty_key` of its own pair. -/
def store_royalty_info (env : Env) (royalty_info : RoyaltyInfo) : Env :=
  let key := make_royalty_key royalty_info.nft_contract royalty_info.token_id
  { env with royaltyConfigs := kset env.royaltyConfigs key royalty_info }

/-- `RoyaltyDistributor::get_royalty_info`: look the royalty config map up
under `make_royalty_key`, failing with `NotFound` when absent. -/
def get_royalty_info (env : Env) (nft_contract : Address) (token_id : Nat) :
    Except SettlementError RoyaltyInfo :=
  match kget env.royaltyConfigs (make_royalty_key nft_contract token_id) with
  | some info => .ok info
  | none => .error .NotFound

/-- `RoyaltyDistributor::set_royalty_info`: reject percentages over 5000 bps,
then store a fresh `RoyaltyInfo` stamped with the ledger timestamp. -/
def set_royalty_info (env : Env) (nft_contract : Address) (token_id : Nat)
    (creator : Address) (royalty_percentage : Nat) (_setter : Address) :
    Except SettlementError Unit × Env :=
  if royalty_percentage > 5000 then (.error .InvalidRoyaltyPercentage, env)
  else
    (.ok (), store_royalty_info env
      { nft_contract := nft_contract
        token_id := token_id
        creator := creator
        royalty_percentage := royalty_percentage
        last_updated := env.timestamp })

/-- `RoyaltyDistributor::calculate_royalties`: look the royalty info up,
compute the creator's royalty amount and build the distribution whose mapping
sends the creator to that amount (seller/platform split fixed at
9500/500 bps). -/
def calculate_royalties (env : Env) (nft_contract : Address) (token_id : Nat)
    (sale_price : Int) : Except SettlementError RoyaltyDistribution :=
  match get_royalty_info env nft_contract token_id with
  | .error e => .error e
  | .ok royalty_info =>
    let royalty_amount :=
      math_utils.calculate_percentage sale_price royalty_info.royalty_percentage
    .ok { creator_address := royalty_info.creator
          creator_percentage := royalty_info.royalty_percentage
          seller_percentage := 9500
          platform_percentage := 500
          total_amount := sale_price
          amounts := kset [] royalty_info.creator royalty_amount }

/-- The loop of `RoyaltyDistributor::distribute_royalties`: transfer each
mapped amount from custody to its recipient; a failed transfer clears the
success flag and the loop continues, a successful one is accumulated with
`safe_add` (whose failure propagates). -/
def distribute_loop (env : Env) (payment_contract : Address) :
    List (Address × Int) → Int → Bool →
    Except SettlementError (Int × Bool) × Env
  | [], total, success => (.ok (total, success), env)
  | (recipient, amount) :: rest, total, success =>
    match asset_utils.transfer_tokens env payment_contract env.contractAddress
        recipient amount with
    | (.ok _, env1) =>
      match math_utils.safe_add total amount with
      | .error e => (.error e, env1)
      | .ok total1 => distribute_loop env1 payment_contract rest total1 success
    | (.error _, env1) => distribute_loop env1 payment_contract rest total false

/-- `RoyaltyDistributor::distribute_royalties`: run the distribution loop over
the mapping, then report a `DistributionResult` whose success flag is the
loop's; the accumulated total is computed but not returned in the result. -/
def distribute_royalties (env : Env) (transaction_id : Nat)
    (royalty_distribution : RoyaltyDistribution) (payment_asset : Asset) :
    Except SettlementError DistributionResult × Env :=
  match distribute_loop env payment_asset.contract
      royalty_distribution.amounts 0 true with
  | (.error e, env1) => (.error e, env1)
  | (.ok r, env1) =>
    (.ok { transaction_id := transaction_id
           total_amount := royalty_distribution.total_amount
           creator_amount :=
             (kget royalty_distribution.amounts
               royalty_distribution.creator_address).getD 0
           seller_amount := math_utils.calculate_percentage
             royalty_distribution.total_amount
             royalty_distribution.seller_percentage
           platform_amount := math_utils.calculate_percentage
             royalty_distribution.total_amount
             royalty_distribution.platform_percentage
           distribution_success := r.2
           timestamp := env1.timestamp }, env1)

/-- The summation loop of `RoyaltyDistributor::validate_royalty_distribution`:
fold `safe_add` over the mapped amounts. -/
def validate_sum_loop : List (Address × Int) → Int →
    Except SettlementError Int
  | [], acc => .ok acc
  | (_, amount) :: rest, acc =>
    match math_utils.safe_add acc amount with
    | .error e => .error e
    | .ok acc1 => validate_sum_loop rest acc1

/-- `RoyaltyDistributor::validate_royalty_distribution`: recompute the sum over
the mapping and require equality with `total_amount`, else `InvalidAmount`. -/
def validate_royalty_distribution (distribution : RoyaltyDistribution) :
    Except SettlementError Unit :=
  match validate_sum_loop distribution.amounts 0 with
  | .error e => .error e
  | .ok total_distributed =>
    if total_distributed ≠ distribution.total_amount then .error .InvalidAmount
    else .ok ()

end RoyaltyDistributor

namespace FeeManager

/-- Modelled from the spec: `fee_manager::FeeManager::calculate_fee` (the file
`fee_manager.rs` is not among the sources) — spec section 4.3 contract surface
only; the fee value is the `Env.calcFee` oracle. -/
def calculate_fee (env : Env) (price : Int) (payer : Address) :
    Except SettlementError Int :=
  .ok (env.calcFee price payer)

/-- Modelled from the spec: `fee_manager::FeeManager::update_fee_config` —
store the new fee configuration singleton. -/
def update_fee_config (env : Env) (new_config : FeeConfig) (_admin : Address) :
    Except SettlementError Unit × Env :=
  (.ok (), { env with feeConfig := some new_config })

/-- Modelled from the spec: `fee_manager::FeeManager::withdraw_platform_fees` —
pay the accumulated fees for the asset out (amount from the `Env.accFees`
oracle). -/
def withdraw_platform_fees (env : Env) (asset : Asset) (_recipient : Address)
    (_admin : Address) : Except SettlementError Int × Env :=
  (.ok (env.accFees asset.contract), env)

end FeeManager

namespace SaleTransactionStore

/-- Modelled from the spec: `storage::transaction_store::SaleTransactionStore::next_id`
(the storage module is not among the sources) — spec section 6: a monotonic id
counter per transaction map. -/
def next_id (env : Env) : Nat × Env :=
  (env.nextSaleId, { env with nextSaleId := env.nextSaleId + 1 })

/-- Modelled from the spec: `SaleTransactionStore::put` — store the sale record
keyed by its transaction id. -/
def put (env : Env) (sale : SaleTransaction) : Env :=
  { env with sales := kset env.sales sale.transaction_id sale }

/-- Modelled from the spec: `SaleTransactionStore::get` — look the sale up by
transaction id, failing with `NotFound` when absent (spec section 7). -/
def get (env : Env) (transaction_id : Nat) :
    Except SettlementError SaleTransaction :=
  match kget env.sales transaction_id with
  | some sale => .ok sale
  | none => .error .NotFound

end SaleTransactionStore

namespace time_utils

/-- Modelled from the spec: `utils::time_utils::validate_transaction_timing`
(the file `utils.rs` is not among the sources) — spec section 4.4 "validate
asset/timing bounds": the end must not precede the start and the duration must
not exceed the maximum. -/
def validate_transaction_timing (start endT max_duration : Nat) :
    Except SettlementError Unit :=
  if start ≤ endT ∧ endT - start ≤ max_duration then .ok ()
  else .error .InvalidAmount

end time_utils

namespace MarketplaceSettlement

/-- `MarketplaceSettlement::create_sale` (wrapped in the reentrancy guard):
validate the currency, the NFT contract, the timing and the seller's
ownership; compute royalties and the platform fee; allocate a transaction id;
store a `Pending` sale with `expires_at = created_at + duration_seconds`; and
initialize an atomic swap for it, passing the seller as the placeholder
buyer. -/
def create_sale (env : Env) (seller : Address) (nft_address : Address)
    (token_id : Nat) (price : Int) (currency : Asset)
    (duration_seconds : Nat) : Except SettlementError Nat × Env :=
  ReentrancyGuard.execute env seller "create_sale" (fun env =>
    if !env.assetValid currency then (.error .InvalidAmount, env)
    else if !env.nftContractValid nft_address then (.error .InvalidAmount, env)
    else
      match time_utils.validate_transaction_timing env.timestamp
          ((env.timestamp + duration_seconds) % U64_MOD) 2592000 with
      | .error e => (.error e, env)
      | .ok _ =>
        if !env.ownsNft nft_address token_id seller then
          (.error .Unauthorized, env)
        else
          match RoyaltyDistributor.calculate_royalties env nft_address token_id
              price with
          | .error e => (.error e, env)
          | .ok royalty_distribution =>
            match FeeManager.calculate_fee env price seller with
            | .error e => (.error e, env)
            | .ok platform_fee =>
              let idEnv := SaleTransactionStore.next_id env
              let sale : SaleTransaction :=
                { transaction_id := idEnv.1
                  seller := seller
                  buyer := none
                  nft_address := nft_address
                  token_id := token_id
                  price := price
                  currency := currency
                  state := .Pending
                  created_at := env.timestamp
                  expires_at := (env.timestamp + duration_seconds) % U64_MOD
                  escrow_address := env.contractAddress
                  royalty_info := royalty_distribution
                  platform_fee := platform_fee }
              let env1 := SaleTransactionStore.put idEnv.2 sale
              match AtomicSwapEngine.initialize_swap env1 idEnv.1 seller seller
                  nft_address token_id currency price with
              | (.error e, env2) => (.error e, env2)
              | (.ok _, env2) => (.ok idEnv.1, env2))

/-- `MarketplaceSettlement::get_sale`: read the sale record from the store. -/
def get_sale (env : Env) (transaction_id : Nat) :
    Except SettlementError SaleTransaction :=
  SaleTransactionStore.get env transaction_id

/-- `MarketplaceSettlement::emergency_withdraw`: fail `Unauthorized` when the
stored admin config is absent or the caller is not the stored admin; fail
`InvalidState` when emergency withdrawal is disabled; then delegate to
`AtomicSwapEngine::emergency_withdraw`. -/
def emergency_withdraw (env : Env) (transaction_id : Nat) (reason : List Nat)
    (admin : Address) : Except SettlementError Unit × Env :=
  match env.adminConfig with
  | none => (.error .Unauthorized, env)
  | some admin_config =>
    if admin_config.admin ≠ admin then (.error .Unauthorized, env)
    else if !admin_config.emergency_withdrawal_enabled then
      (.error .InvalidState, env)
    else AtomicSwapEngine.emergency_withdraw env transaction_id admin reason

/-- `MarketplaceSettlement::update_fee_config`: fail `Unauthorized` when the
stored admin config is absent or the caller is not the stored admin; then
delegate to `FeeManager::update_fee_config`. -/
def update_fee_config (env : Env) (new_config : FeeConfig) (admin : Address) :
    Except SettlementError Unit × Env :=
  match env.adminConfig with
  | none => (.error .Unauthorized, env)
  | some admin_config =>
    if admin_config.admin ≠ admin then (.error .Unauthorized, env)
    else FeeManager.update_fee_config env new_config admin

/-- `MarketplaceSettlement::withdraw_platform_fees`: fail `Unauthorized` when
the stored admin config is absent or the caller is not the stored admin; then
delegate to `FeeManager::withdraw_platform_fees`. -/
def withdraw_platform_fees (env : Env) (asset : Asset) (recipient : Address)
    (admin : Address) : Except SettlementError Int × Env :=
  match env.adminConfig with
  | none => (.error .Unauthorized, env)
  | some admin_config =>
    if admin_config.admin ≠ admin then (.error .Unauthorized, env)
    else FeeManager.withdraw_platform_fees env asset recipient admin

end MarketplaceSettlement

/-- Specification-side checked running sum: fold the amounts left to right,
returning `none` as soon as a partial sum leaves the `i128` range.  Used to
characterise the summation loop of `validate_royalty_distribution` and
`distribute_royalties`. -/
def checkedSumAux (acc : Int) : List Int → Option Int
  | [] => some acc
  | a :: t =>
    if I128_MIN ≤ acc + a ∧ acc + a ≤ I128_MAX then checkedSumAux (acc + a) t
    else none

/-- Checked running sum starting from zero. -/
def checkedSum (l : List Int) : Option Int := checkedSumAux 0 l

/-- A sample environment: ledger time 100, contract address 999, empty
storage, all external capabilities succeeding. -/
def sampleEnv : Env :=
  { timestamp := 100
    contractAddress := 999
    swaps := []
    nextSwap := 1
    royaltyConfigs := []
    sales := []
    nextSaleId := 1
    adminConfig := none
    feeConfig := none
    guards := []
    transfers := []
    transferOk := fun _ _ _ _ _ => true
    assetValid := fun _ => true
    nftContractValid := fun _ => true
    ownsNft := fun _ _ _ => true
    calcFee := fun _ _ => 0
    accFees := fun _ => 0 }

/-- A sample payment asset. -/
def usdAsset : Asset := ⟨20, "USD"⟩

/-- `sampleEnv` after `initialize_swap` for transaction id 7: seller 3,
buyer 4, NFT contract 5 token 9, payment 1000 of `usdAsset`. -/
def envWithSwap7 : Env :=
  (AtomicSwapEngine.initialize_swap sampleEnv 7 3 4 5 9 usdAsset 1000).2

/-- The swap record `initialize_swap` stores in `envWithSwap7`. -/
def swap7 : AtomicSwap :=
  { swap_id := 1
    transaction_id := 7
    seller_escrow := [⟨7, 3, ⟨5, "NFT"⟩, 9, true, 100, none⟩]
    buyer_escrow := [⟨7, 4, usdAsset, 1000, false, 100, none⟩]
    state := .Pending
    created_at := 100
    executed_at := none }

/-- A sample admin configuration with admin address 99. -/
def adminCfg99 : AdminConfig := ⟨99, true, 2592000, 604800, 100, 5000, 86400, 3⟩

/-- `envWithSwap7` with the admin configuration present. -/
def envAdmin : Env := { envWithSwap7 with adminConfig := some adminCfg99 }

/-- A distribution whose amounts sum (exactly) to its `total_amount`, but whose
running sum overflows `i128` after the second entry. -/
def overflowDist : RoyaltyDistribution :=
  ⟨1, 0, 0, 0, 2 ^ 127 - 2, [(1, 2 ^ 127 - 1), (2, 1), (3, -2)]⟩

/-- A small well-formed distribution: 60 + 40 = 100. -/
def smallDist : RoyaltyDistribution := ⟨1, 500, 9500, 500, 100, [(1, 60), (2, 40)]⟩

/-- A small distribution for the partial-failure scenario: recipients 1, 2, 3
with amounts 10, 20, 30. -/
def triDist : RoyaltyDistribution := ⟨1, 0, 9500, 500, 60, [(1, 10), (2, 20), (3, 30)]⟩

/-- `sampleEnv` whose transfer capability fails exactly for recipient 2. -/
def failTwoEnv : Env :=
  { sampleEnv with transferOk := fun _ _ dest _ _ => !(dest == 2) }

/-- `sampleEnv` with one royalty config stored (creator 10, 250 bps, recorded
for NFT contract 5 token 7). -/
def royEnv : Env :=
  { sampleEnv with royaltyConfigs := [([], ⟨5, 7, 10, 250, 0⟩)] }

/-- A sample fee configuration. -/
def feeCfgSample : FeeConfig := ⟨250, 1000, 1000000, 17, true, [], []⟩

/-- `envWithSwap7` at a later ledger time, ready for the buyer's deposit. -/
def envDeposit : Env := { envWithSwap7 with timestamp := 200 }

/-- `sampleEnv` at ledger time zero. -/
def zeroTsEnv : Env := { sampleEnv with timestamp := 0 }

/-- Claim C3: royalty configuration is claimed to be kept one per
(nft contract, token id) pair, with writes to a different pair leaving earlier
pairs unchanged.  The code violates this: `make_royalty_key` ignores both
arguments, so every pair shares one storage slot.  Evaluation at the failing
input: after `set_royalty_info` for pair (1, 1) (creator 10, 100 bps) and then
for the different pair (2, 2) (creator 20, 200 bps), `get_royalty_info (1, 1)`
returns the `RoyaltyInfo` stored for pair (2, 2), not the one stored for
(1, 1). -/
theorem c3_royalty_key_collision_eval :
    RoyaltyDistributor.get_royalty_info
      (RoyaltyDistributor.set_royalty_info
        (RoyaltyDistributor.set_royalty_info sampleEnv 1 1 10 100 10).2
        2 2 20 200 20).2 1 1 =
      .ok ⟨2, 2, 20, 200, 100⟩ := rfl

/-- Claim C5: for every stored swap whose state is not `Ready` (`Pending`,
`SellerFunded`, `BuyerFunded`, `Executed` or `Failed`), `execute_swap` on its
transaction id returns `InvalidState` and leaves the environment — in
particular the swap record — unchanged. -/
theorem c5_execute_swap_not_ready_invalid_state (env : Env) (txid : Nat)
    (executor : Address) (s : AtomicSwap)
    (hg : (executor, "execute_swap") ∉ env.guards)
    (hs : AtomicSwapEngine.get_swap_by_transaction env txid = .ok s)
    (hns : s.state ≠ SwapState.Ready) :
    AtomicSwapEngine.execute_swap env txid executor =
      (.error .InvalidState, env) := by
  have hs' : AtomicSwapEngine.get_swap_by_transaction
      { env with guards := (executor, "execute_swap") :: env.guards } txid =
      .ok s := hs
  simp only [AtomicSwapEngine.execute_swap, ReentrancyGuard.execute, if_neg hg]
  rw [hs']
  simp only [ne_eq, hns, not_false_eq_true, if_true, ReentrancyGuard.removeGuard,
    if_pos rfl]

/-- Witness for C5 at a concrete input: `envWithSwap7` stores a `Pending` swap
for transaction id 7, and `execute_swap` by caller 4 fails `InvalidState`
without touching the environment. -/
theorem c5_witness :
    AtomicSwapEngine.execute_swap envWithSwap7 7 4 =
      (.error .InvalidState, envWithSwap7) :=
  c5_execute_swap_not_ready_invalid_state envWithSwap7 7 4 swap7
    (by simp [envWithSwap7, sampleEnv, AtomicSwapEngine.initialize_swap,
      AtomicSwapEngine.store_swap, AtomicSwapEngine.next_swap_id])
    rfl (by decide)

/-- Claim C8: every admin-only operation (`emergency_withdraw`,
`update_fee_config`, `withdraw_platform_fees`) fails `Unauthorized` when the
stored admin config is absent, and fails `Unauthorized` for every caller
different from the stored admin when it is present. -/
theorem c8_admin_ops_fail_closed (env : Env) (txid : Nat) (reason : List Nat)
    (newCfg : FeeConfig) (asset : Asset) (recipient caller : Address) :
    (env.adminConfig = none →
      MarketplaceSettlement.emergency_withdraw env txid reason caller =
        (.error .Unauthorized, env) ∧
      MarketplaceSettlement.update_fee_config env newCfg caller =
        (.error .Unauthorized, env) ∧
      MarketplaceSettlement.withdraw_platform_fees env asset recipient caller =
        (.error .Unauthorized, env)) ∧
    (∀ ac, env.adminConfig = some ac → caller ≠ ac.admin →
      MarketplaceSettlement.emergency_withdraw env txid reason caller =
        (.error .Unauthorized, env) ∧
      MarketplaceSettlement.update_fee_config env newCfg caller =
        (.error .Unauthorized, env) ∧
      MarketplaceSettlement.withdraw_platform_fees env asset recipient caller =
        (.error .Unauthorized, env)) := by
  constructor
  · intro h
    unfold MarketplaceSettlement.emergency_withdraw
      MarketplaceSettlement.update_fee_config
      MarketplaceSettlement.withdraw_platform_fees
    rw [h]
    exact ⟨rfl, rfl, rfl⟩
  · intro ac h hne
    have hne' : ac.admin ≠ caller := Ne.symm hne
    unfold MarketplaceSettlement.emergency_withdraw
      MarketplaceSettlement.update_fee_config
      MarketplaceSettlement.withdraw_platform_fees
    rw [h]
    simp [hne']

/-- Witness for C8 at concrete inputs: with no admin config stored
(`envWithSwap7`) the three operations fail `Unauthorized` for caller 99, and
with admin 99 stored (`envAdmin`) they fail `Unauthorized` for caller 98. -/
theorem c8_witness :
    (MarketplaceSettlement.emergency_withdraw envWithSwap7 7 [] 99 =
      (.error .Unauthorized, envWithSwap7) ∧
     MarketplaceSettlement.update_fee_config envWithSwap7 feeCfgSample 99 =
      (.error .Unauthorized, envWithSwap7) ∧
     MarketplaceSettlement.withdraw_platform_fees envWithSwap7 usdAsset 17 99 =
      (.error .Unauthorized, envWithSwap7)) ∧
    (MarketplaceSettlement.emergency_withdraw envAdmin 7 [] 98 =
      (.error .Unauthorized, envAdmin) ∧
     MarketplaceSettlement.update_fee_config envAdmin feeCfgSample 98 =
      (.error .Unauthorized, envAdmin) ∧
     MarketplaceSettlement.withdraw_platform_fees envAdmin usdAsset 17 98 =
      (.error .Unauthorized, envAdmin)) :=
  ⟨c8_admin_ops_fail_closed envWithSwap7 7 [] feeCfgSample usdAsset 17 99 |>.1 rfl,
   c8_admin_ops_fail_closed envAdmin 7 [] feeCfgSample usdAsset 17 98 |>.2
     adminCfg99 rfl (by decide)⟩

/-- Claim C2 (counterexample): `envWithSwap7` already stores a swap for
transaction id 7, yet a second `initialize_swap` for transaction id 7 returns
`Ok` (swap id 2) instead of an error, after which the store holds two
`AtomicSwap` records with transaction id 7. -/
theorem c2_counterexample :
    AtomicSwapEngine.get_swap_by_transaction envWithSwap7 7 = .ok swap7 ∧
    (AtomicSwapEngine.initialize_swap envWithSwap7 7 3 4 5 9 usdAsset 1000).1 =
      .ok 2 ∧
    ((AtomicSwapEngine.initialize_swap envWithSwap7 7 3 4 5 9 usdAsset
        1000).2.swaps.filter (fun p => decide (p.2.transaction_id = 7))).length
      = 2 :=
  ⟨rfl, rfl, rfl⟩

/-- Claim C2 (amended): `initialize_swap` performs no uniqueness check on the
transaction id.  A further call with a transaction id that already has a swap
record succeeds, returning the fresh swap id, keeping the old record and
storing a second record with the same transaction id under the fresh swap
id. -/
theorem c2_amended_no_uniqueness_check (env : Env) (txid : Nat)
    (seller buyer nft : Address) (tokenId : Nat) (asset : Asset) (amt : Int)
    (k : Nat) (s : AtomicSwap)
    (hk : kget env.swaps k = some s) (_htx : s.transaction_id = txid)
    (hne : k ≠ env.nextSwap) :
    (AtomicSwapEngine.initialize_swap env txid seller buyer nft tokenId asset
        amt).1 = .ok env.nextSwap ∧
    kget (AtomicSwapEngine.initialize_swap env txid seller buyer nft tokenId
        asset amt).2.swaps k = some s ∧
    (kget (AtomicSwapEngine.initialize_swap env txid seller buyer nft tokenId
        asset amt).2.swaps env.nextSwap).map (fun s => s.transaction_id) =
      some txid := by
  refine ⟨rfl, ?_, ?_⟩
  · show kget (kset env.swaps env.nextSwap _) k = some s
    rw [kget_kset_ne _ _ _ _ (Ne.symm hne)]
    exact hk
  · show (kget (kset env.swaps env.nextSwap _) env.nextSwap).map _ = some txid
    rw [kget_kset_self]
    rfl

/-- Witness for C2's amended theorem at a concrete input: the second
`initialize_swap` for transaction id 7 on `envWithSwap7` succeeds and both
swap ids 1 and 2 carry transaction id 7. -/
theorem c2_witness :
    (AtomicSwapEngine.initialize_swap envWithSwap7 7 3 4 5 9 usdAsset
        1000).1 = .ok 2 ∧
    kget (AtomicSwapEngine.initialize_swap envWithSwap7 7 3 4 5 9 usdAsset
        1000).2.swaps 1 = some swap7 ∧
    (kget (AtomicSwapEngine.initialize_swap envWithSwap7 7 3 4 5 9 usdAsset
        1000).2.swaps 2).map (fun s => s.transaction_id) = some 7 :=
  c2_amended_no_uniqueness_check envWithSwap7 7 3 4 5 9 usdAsset 1000 1 swap7
    rfl rfl (by decide)

/-- Claim C7 (counterexample): `overflowDist`'s mapped amounts sum exactly to
its `total_amount` (`(2^127 - 1) + 1 + (-2) = 2^127 - 2`), yet
`validate_royalty_distribution` does not succeed: the checked running sum
overflows `i128` on the second entry and the call fails. -/
theorem c7_counterexample :
    ((overflowDist.amounts.map Prod.snd).sum = overflowDist.total_amount) ∧
    RoyaltyDistributor.validate_royalty_distribution overflowDist =
      .error .InvalidAmount :=
  ⟨by decide, rfl⟩

/-- The summation loop of `validate_royalty_distribution` computes exactly the
specification-side checked running sum, reporting `InvalidAmount` when a
partial sum leaves the `i128` range. -/
theorem validate_sum_loop_eq_checkedSumAux (l : List (Address × Int)) :
    ∀ acc, RoyaltyDistributor.validate_sum_loop l acc =
      match checkedSumAux acc (l.map Prod.snd) with
      | some total => .ok total
      | none => .error .InvalidAmount := by
  induction l with
  | nil => intro acc; rfl
  | cons p t ih =>
    intro acc
    obtain ⟨a, x⟩ := p
    simp only [RoyaltyDistributor.validate_sum_loop, math_utils.safe_add,
      List.map_cons, checkedSumAux]
    by_cases hb : I128_MIN ≤ acc + x ∧ acc + x ≤ I128_MAX
    · rw [if_pos hb, if_pos hb]
      exact ih (acc + x)
    · rw [if_neg hb, if_neg hb]

/-- Claim C7 (amended): `validate_royalty_distribution` succeeds exactly when
the checked running sum over the mapped amounts (i128-checked addition in map
order) is defined and equals `total_amount`; every failure — a sum mismatch or
an overflow of the running sum — reports `InvalidAmount`. -/
theorem c7_amended_validate_checked_sum (d : RoyaltyDistribution) :
    (RoyaltyDistributor.validate_royalty_distribution d = .ok () ↔
      checkedSum (d.amounts.map Prod.snd) = some d.total_amount) ∧
    (∀ e, RoyaltyDistributor.validate_royalty_distribution d = .error e →
      e = SettlementError.InvalidAmount) := by
  unfold RoyaltyDistributor.validate_royalty_distribution checkedSum
  rw [validate_sum_loop_eq_checkedSumAux]
  cases h : checkedSumAux 0 (d.amounts.map Prod.snd) with
  | none => exact ⟨by simp, fun e he => by injection he with h1; exact h1.symm⟩
  | some total =>
    by_cases ht : total = d.total_amount
    · subst ht
      exact ⟨by simp, fun e he => by simp at he⟩
    · constructor
      · simp only [ne_eq, ht, not_false_eq_true, if_true]
        constructor
        · intro he; exact absurd he (by simp)
        · intro he
          injection he with he'
          exact absurd he' ht
      · intro e he
        simp only [ne_eq, ht, not_false_eq_true, if_true] at he
        injection he with h1
        exact h1.symm

/-- Witness for C7's amended theorem at a concrete input: `smallDist`
(60 + 40 = 100) passes validation, by the left-to-right direction of the
characterisation. -/
theorem c7_witness :
    RoyaltyDistributor.validate_royalty_distribution smallDist = .ok () :=
  (c7_amended_validate_checked_sum smallDist).1.mpr (by decide)

/-- Claim C10 (counterexample): on `adminEnv` (admin 99, swap for transaction
id 7 in state `Pending`), `emergency_withdraw` by the admin succeeds, yet the
stored swap map is unchanged: the swap record is still `Pending`, not
`Failed`. -/
theorem c10_counterexample :
    (MarketplaceSettlement.emergency_withdraw envAdmin 7 [] 99).1 = .ok () ∧
    (MarketplaceSettlement.emergency_withdraw envAdmin 7 [] 99).2.swaps =
      envAdmin.swaps ∧
    (kget envAdmin.swaps 1).map (fun s => s.state) = some SwapState.Pending :=
  ⟨rfl, rfl, rfl⟩

/-- Token transfers never touch the swap map. -/
theorem transfer_tokens_swaps (env : Env) (c s d : Address) (a : Int) :
    (asset_utils.transfer_tokens env c s d a).2.swaps = env.swaps := by
  unfold asset_utils.transfer_tokens
  split <;> rfl

/-- NFT transfers never touch the swap map. -/
theorem transfer_nft_swaps (env : Env) (c s d : Address) (t : Nat) :
    (asset_utils.transfer_nft env c s d t).2.swaps = env.swaps := by
  unfold asset_utils.transfer_nft
  split <;> rfl

/-- Escrow-out transfers never touch the swap map. -/
theorem transfer_from_escrow_swaps (env : Env) (d : Address) (asset : Asset)
    (a : Int) (n : Bool) :
    (AtomicSwapEngine.transfer_from_escrow env d asset a n).2.swaps =
      env.swaps := by
  unfold AtomicSwapEngine.transfer_from_escrow
  split
  · exact transfer_nft_swaps ..
  · exact transfer_tokens_swaps ..

/-- The refund loop never touches the swap map. -/
theorem refund_leg_swaps (l : List EscrowHolding) : ∀ env : Env,
    (AtomicSwapEngine.refund_leg env l).2.swaps = env.swaps := by
  induction l with
  | nil => intro env; rfl
  | cons h t ih =>
    intro env
    have hfr := transfer_from_escrow_swaps env h.holder h.asset h.amount h.is_nft
    simp only [AtomicSwapEngine.refund_leg]
    rcases hr : AtomicSwapEngine.transfer_from_escrow env h.holder h.asset
        h.amount h.is_nft with ⟨r, env1⟩
    rw [hr] at hfr
    cases r with
    | error e => simpa using hfr
    | ok u => simp only []; rw [ih env1]; exact hfr

/-- `refund_escrow_holdings` never touches the swap map. -/
theorem refund_escrow_holdings_swaps (env : Env) (swap : AtomicSwap) :
    (AtomicSwapEngine.refund_escrow_holdings env swap).2.swaps = env.swaps := by
  unfold AtomicSwapEngine.refund_escrow_holdings
  have h1 := refund_leg_swaps swap.seller_escrow env
  rcases hr : AtomicSwapEngine.refund_leg env swap.seller_escrow with ⟨r, env1⟩
  rw [hr] at h1
  cases r with
  | error e => simpa using h1
  | ok u => simp only []; rw [refund_leg_swaps swap.buyer_escrow env1]; exact h1

/-- `AtomicSwapEngine::emergency_withdraw` never touches the swap map. -/
theorem engine_emergency_withdraw_swaps (env : Env) (txid : Nat)
    (admin : Address) (reason : List Nat) :
    (AtomicSwapEngine.emergency_withdraw env txid admin reason).2.swaps =
      env.swaps := by
  unfold AtomicSwapEngine.emergency_withdraw
  cases hget : AtomicSwapEngine.get_swap_by_transaction env txid with
  | error e => rfl
  | ok swap =>
    simp only []
    have h1 := refund_escrow_holdings_swaps env swap
    rcases hr : AtomicSwapEngine.refund_escrow_holdings env swap with ⟨r, env1⟩
    rw [hr] at h1
    cases r with
    | error e => exact h1
    | ok u => exact h1

/-- `MarketplaceSettlement::emergency_withdraw` never touches the swap map. -/
theorem core_emergency_withdraw_swaps (env : Env) (txid : Nat)
    (reason : List Nat) (admin : Address) :
    (MarketplaceSettlement.emergency_withdraw env txid reason admin).2.swaps =
      env.swaps := by
  unfold MarketplaceSettlement.emergency_withdraw
  cases h : env.adminConfig with
  | none => rfl
  | some cfg =>
    by_cases ha : cfg.admin ≠ admin
    · simp [ha]
    · by_cases he : cfg.emergency_withdrawal_enabled
      · simp [ha, he, engine_emergency_withdraw_swaps]
      · simp [ha, he]

/-- A successful `cancel_swap` leaves the swap record for the transaction id
in state `Failed` (environments whose swap map is well formed: distinct keys,
each equal to its record's swap id). -/
theorem cancel_swap_sets_failed (env : Env) (txid : Nat) (canceller : Address)
    (hnd : (env.swaps.map Prod.fst).Nodup)
    (hw : ∀ p ∈ env.swaps, p.1 = p.2.swap_id)
    (hok : (AtomicSwapEngine.cancel_swap env txid canceller).1 = .ok ()) :
    ((AtomicSwapEngine.get_swap_by_transaction
        (AtomicSwapEngine.cancel_swap env txid canceller).2 txid).map
      (fun s => s.state)) = .ok SwapState.Failed := by
  unfold AtomicSwapEngine.cancel_swap at hok ⊢
  cases hget : AtomicSwapEngine.get_swap_by_transaction env txid with
  | error e =>
    rw [hget] at hok
    exact absurd hok (by simp)
  | ok swap =>
    rw [hget] at hok
    simp only [] at hok ⊢
    split at hok
    · exact absurd hok (by simp)
    · next hna =>
      rw [if_neg hna]
      have h1 := refund_escrow_holdings_swaps env swap
      rcases hr : AtomicSwapEngine.refund_escrow_holdings env swap with ⟨r, env1⟩
      rw [hr] at hok h1
      cases r with
      | error e => exact absurd hok (by simp)
      | ok u =>
        simp only [AtomicSwapEngine.store_swap,
          AtomicSwapEngine.get_swap_by_transaction]
        rw [h1]
        -- recover the entry `find?` returned for the original environment
        unfold AtomicSwapEngine.get_swap_by_transaction at hget
        cases hf : env.swaps.find?
            (fun p => decide (p.2.transaction_id = txid)) with
        | none => rw [hf] at hget; exact absurd hget (by simp)
        | some p =>
          rw [hf] at hget
          obtain ⟨k0, s0⟩ := p
          have hps : s0 = swap := by
            have : Except.ok (ε := SettlementError) s0 = Except.ok swap := hget
            injection this
          subst hps
          have hk0 : k0 = s0.swap_id :=
            hw (k0, s0) (List.mem_of_find?_eq_some hf)
          have hq0 := List.find?_some hf
          subst hk0
          rw [find?_kset_of_found env.swaps s0.swap_id s0
            { s0 with state := SwapState.Failed }
            (fun p => decide (p.2.transaction_id = txid)) hnd hf
            (by simpa using hq0)]
          rfl

/-- Claim C10 (amended): after a successful `cancel_swap` the stored swap
record for the transaction id is in state `Failed`; `emergency_withdraw`
(both the engine function and the admin-gated settlement entry point) refunds
but never updates the stored swap record, so the record keeps whatever state
it had before. -/
theorem c10_amended_cancel_failed_emergency_unchanged :
    (∀ (env : Env) (txid : Nat) (canceller : Address),
      (env.swaps.map Prod.fst).Nodup →
      (∀ p ∈ env.swaps, p.1 = p.2.swap_id) →
      (AtomicSwapEngine.cancel_swap env txid canceller).1 = .ok () →
      ((AtomicSwapEngine.get_swap_by_transaction
          (AtomicSwapEngine.cancel_swap env txid canceller).2 txid).map
        (fun s => s.state)) = .ok SwapState.Failed) ∧
    (∀ (env : Env) (txid : Nat) (admin : Address) (reason : List Nat),
      (AtomicSwapEngine.emergency_withdraw env txid admin reason).2.swaps =
        env.swaps) ∧
    (∀ (env : Env) (txid : Nat) (reason : List Nat) (admin : Address),
      (MarketplaceSettlement.emergency_withdraw env txid reason admin).2.swaps =
        env.swaps) :=
  ⟨cancel_swap_sets_failed, engine_emergency_withdraw_swaps,
    core_emergency_withdraw_swaps⟩

/-- `update_swap_state` never changes the swap id. -/
theorem update_swap_state_swap_id (w : AtomicSwap) :
    (AtomicSwapEngine.update_swap_state w).swap_id = w.swap_id := by
  unfold AtomicSwapEngine.update_swap_state
  cases w.seller_escrow.all (fun h => decide (0 < h.deposited_at)) <;>
    cases w.buyer_escrow.all (fun h => decide (0 < h.deposited_at)) <;> rfl

/-- `update_swap_state` never changes the transaction id. -/
theorem update_swap_state_transaction_id (w : AtomicSwap) :
    (AtomicSwapEngine.update_swap_state w).transaction_id = w.transaction_id := by
  unfold AtomicSwapEngine.update_swap_state
  cases w.seller_escrow.all (fun h => decide (0 < h.deposited_at)) <;>
    cases w.buyer_escrow.all (fun h => decide (0 < h.deposited_at)) <;> rfl

/-- `update_swap_state` sets the state exactly by the stamped status of the
two legs: both fully stamped → `Ready`, only the seller leg → `SellerFunded`,
only the buyer leg → `BuyerFunded`, neither → `Pending`; the escrow lists
themselves are unchanged. -/
theorem update_swap_state_spec (w : AtomicSwap) :
    (AtomicSwapEngine.update_swap_state w).seller_escrow = w.seller_escrow ∧
    (AtomicSwapEngine.update_swap_state w).buyer_escrow = w.buyer_escrow ∧
    ((AtomicSwapEngine.update_swap_state w).state = SwapState.Ready ↔
      (∀ h ∈ w.seller_escrow, 0 < h.deposited_at) ∧
      (∀ h ∈ w.buyer_escrow, 0 < h.deposited_at)) ∧
    ((AtomicSwapEngine.update_swap_state w).state = SwapState.SellerFunded ↔
      (∀ h ∈ w.seller_escrow, 0 < h.deposited_at) ∧
      ¬(∀ h ∈ w.buyer_escrow, 0 < h.deposited_at)) ∧
    ((AtomicSwapEngine.update_swap_state w).state = SwapState.BuyerFunded ↔
      ¬(∀ h ∈ w.seller_escrow, 0 < h.deposited_at) ∧
      (∀ h ∈ w.buyer_escrow, 0 < h.deposited_at)) ∧
    ((AtomicSwapEngine.update_swap_state w).state = SwapState.Pending ↔
      ¬(∀ h ∈ w.seller_escrow, 0 < h.deposited_at) ∧
      ¬(∀ h ∈ w.buyer_escrow, 0 < h.deposited_at)) := by
  have e1 : AtomicSwapEngine.update_swap_state w =
      (match w.seller_escrow.all (fun h => decide (0 < h.deposited_at)),
             w.buyer_escrow.all (fun h => decide (0 < h.deposited_at)) with
       | true, false => { w with state := .SellerFunded }
       | false, true => { w with state := .BuyerFunded }
       | true, true => { w with state := .Ready }
       | false, false => { w with state := .Pending }) := rfl
  rw [e1]
  cases hs : w.seller_escrow.all (fun h => decide (0 < h.deposited_at)) <;>
    cases hb : w.buyer_escrow.all (fun h => decide (0 < h.deposited_at)) <;>
    simp_all [List.all_eq_true]

/-- `transfer_to_escrow` touches neither the swap map nor the clock. -/
theorem transfer_to_escrow_frame (env : Env) (src : Address) (asset : Asset)
    (amt : Int) (nft : Bool) :
    (AtomicSwapEngine.transfer_to_escrow env src asset amt nft).2.swaps =
      env.swaps ∧
    (AtomicSwapEngine.transfer_to_escrow env src asset amt nft).2.timestamp =
      env.timestamp := by
  unfold AtomicSwapEngine.transfer_to_escrow asset_utils.transfer_nft
    asset_utils.transfer_tokens
  split <;> split <;> exact ⟨rfl, rfl⟩

/-- A successful `deposit_to_escrow` stores — under the transaction id it was
called with — exactly the found swap with the matching holdings re-stamped at
the current ledger time and the state recomputed by `update_swap_state`. -/
theorem deposit_stores_updated_swap (env : Env) (txid : Nat) (dep : Address)
    (asset : Asset) (amt : Int) (nft : Bool) (s0 : AtomicSwap)
    (hnd : (env.swaps.map Prod.fst).Nodup)
    (hw : ∀ p ∈ env.swaps, p.1 = p.2.swap_id)
    (hget : AtomicSwapEngine.get_swap_by_transaction env txid = .ok s0)
    (hok : (AtomicSwapEngine.deposit_to_escrow env txid dep asset amt
      nft).1 = .ok ()) :
    AtomicSwapEngine.get_swap_by_transaction
      (AtomicSwapEngine.deposit_to_escrow env txid dep asset amt nft).2 txid =
    .ok (AtomicSwapEngine.update_swap_state
      { s0 with
        seller_escrow := AtomicSwapEngine.stamp_first s0.seller_escrow dep
          asset.contract env.timestamp
        buyer_escrow := AtomicSwapEngine.stamp_first s0.buyer_escrow dep
          asset.contract env.timestamp }) := by
  unfold AtomicSwapEngine.deposit_to_escrow at hok ⊢
  rw [hget] at hok ⊢
  simp only [] at hok ⊢
  split at hok
  · exact absurd hok (by simp)
  · next hna =>
    rw [if_neg hna]
    have hfr := transfer_to_escrow_frame env dep asset amt nft
    rcases htr : AtomicSwapEngine.transfer_to_escrow env dep asset amt nft
      with ⟨r, env1⟩
    rw [htr] at hok hfr
    cases r with
    | error e => exact absurd hok (by simp)
    | ok u =>
      simp only [AtomicSwapEngine.store_swap,
        AtomicSwapEngine.get_swap_by_transaction,
        AtomicSwapEngine.update_escrow_holding]
      rw [hfr.1, hfr.2]
      unfold AtomicSwapEngine.get_swap_by_transaction at hget
      cases hf : env.swaps.find?
          (fun p => decide (p.2.transaction_id = txid)) with
      | none => rw [hf] at hget; exact absurd hget (by simp)
      | some p =>
        rw [hf] at hget
        obtain ⟨k0, s1⟩ := p
        have hps : s1 = s0 := by
          have : Except.ok (ε := SettlementError) s1 = Except.ok s0 := hget
          injection this
        subst hps
        have hk0 : k0 = s1.swap_id :=
          hw (k0, s1) (List.mem_of_find?_eq_some hf)
        have hq0 := List.find?_some hf
        subst hk0
        have hsid : (AtomicSwapEngine.update_swap_state
            { s1 with
              seller_escrow := AtomicSwapEngine.stamp_first s1.seller_escrow
                dep asset.contract env.timestamp
              buyer_escrow := AtomicSwapEngine.stamp_first s1.buyer_escrow
                dep asset.contract env.timestamp }).swap_id = s1.swap_id :=
          update_swap_state_swap_id _

        rw [hsid]
        rw [find?_kset_of_found env.swaps s1.swap_id s1
          (AtomicSwapEngine.update_swap_state
            { s1 with
              seller_escrow := AtomicSwapEngine.stamp_first s1.seller_escrow
                dep asset.contract env.timestamp
              buyer_escrow := AtomicSwapEngine.stamp_first s1.buyer_escrow
                dep asset.contract env.timestamp })
          (fun p => decide (p.2.transaction_id = txid)) hnd hf
          (by simpa [update_swap_state_transaction_id] using hq0)]

/-- Buyer-only deposit scenario: a swap initialized at creation time
`env.timestamp` on an empty store, followed by the buyer depositing the
payment leg at a later time `t > 0`.  Because `initialize_swap` pre-stamps
both legs with the creation timestamp, the recomputed state is `Ready`
whenever the swap was created at a positive ledger time, and `BuyerFunded`
exactly when it was created at ledger time 0. -/
theorem buyer_only_deposit_state (env : Env) (txid : Nat)
    (seller buyer nft : Address) (tokenId : Nat) (asset : Asset) (amt : Int)
    (t : Nat) (hempty : env.swaps = []) (hsb : seller ≠ buyer) (ht : 0 < t)
    (htr : env.transferOk asset.contract buyer env.contractAddress amt false =
      true) :
    ((AtomicSwapEngine.get_swap_by_transaction
        (AtomicSwapEngine.deposit_to_escrow
          { (AtomicSwapEngine.initialize_swap env txid seller buyer nft
              tokenId asset amt).2 with timestamp := t }
          txid buyer asset amt false).2 txid).map (fun s => s.state)) =
      .ok (if 0 < env.timestamp then SwapState.Ready
           else SwapState.BuyerFunded) := by
  by_cases hc : 0 < env.timestamp <;>
    simp [AtomicSwapEngine.initialize_swap, AtomicSwapEngine.next_swap_id,
      AtomicSwapEngine.store_swap, AtomicSwapEngine.deposit_to_escrow,
      AtomicSwapEngine.get_swap_by_transaction,
      AtomicSwapEngine.transfer_to_escrow, asset_utils.transfer_tokens,
      AtomicSwapEngine.update_escrow_holding, AtomicSwapEngine.stamp_first,
      AtomicSwapEngine.update_swap_state, kset, List.find?, hempty, hsb, ht,
      htr, hc] <;> rfl

/-- Claim C4 (counterexample): the swap of `envWithSwap7` was initialized at
ledger time 100 and nobody has deposited; at time 200 the buyer (address 4)
deposits the payment leg — the only deposit ever made — and the recomputed
state is `Ready`, not `BuyerFunded` as the claim requires for a swap where
only the buyer has deposited. -/
theorem c4_counterexample :
    (AtomicSwapEngine.deposit_to_escrow envDeposit 7 4 usdAsset 1000
        false).1 = .ok () ∧
    ((AtomicSwapEngine.get_swap_by_transaction
        (AtomicSwapEngine.deposit_to_escrow envDeposit 7 4 usdAsset 1000
          false).2 7).map (fun s => s.state)) = .ok SwapState.Ready ∧
    SwapState.Ready ≠ SwapState.BuyerFunded :=
  ⟨rfl, rfl, by decide⟩

/-- Claim C4 (amended): after any successful `deposit_to_escrow`, the stored
swap's state matches the stamped status of the legs exactly as claimed
(`SellerFunded`/`BuyerFunded`/`Ready`/`Pending`); however `initialize_swap`
pre-stamps both legs with the creation timestamp, so a swap created at a
positive ledger time becomes `Ready` on its first deposit, and a buyer-only
deposit yields `BuyerFunded` exactly for swaps created at ledger time 0. -/
theorem c4_amended_state_recompute :
    (∀ (env : Env) (txid : Nat) (dep : Address) (asset : Asset) (amt : Int)
        (nft : Bool) (s' : AtomicSwap),
      (env.swaps.map Prod.fst).Nodup →
      (∀ p ∈ env.swaps, p.1 = p.2.swap_id) →
      (AtomicSwapEngine.deposit_to_escrow env txid dep asset amt nft).1 =
        .ok () →
      AtomicSwapEngine.get_swap_by_transaction
        (AtomicSwapEngine.deposit_to_escrow env txid dep asset amt nft).2
        txid = .ok s' →
      ((s'.state = SwapState.Ready ↔
          (∀ h ∈ s'.seller_escrow, 0 < h.deposited_at) ∧
          (∀ h ∈ s'.buyer_escrow, 0 < h.deposited_at)) ∧
       (s'.state = SwapState.SellerFunded ↔
          (∀ h ∈ s'.seller_escrow, 0 < h.deposited_at) ∧
          ¬(∀ h ∈ s'.buyer_escrow, 0 < h.deposited_at)) ∧
       (s'.state = SwapState.BuyerFunded ↔
          ¬(∀ h ∈ s'.seller_escrow, 0 < h.deposited_at) ∧
          (∀ h ∈ s'.buyer_escrow, 0 < h.deposited_at)) ∧
       (s'.state = SwapState.Pending ↔
          ¬(∀ h ∈ s'.seller_escrow, 0 < h.deposited_at) ∧
          ¬(∀ h ∈ s'.buyer_escrow, 0 < h.deposited_at)))) ∧
    (∀ (env : Env) (txid : Nat) (seller buyer nft : Address) (tokenId : Nat)
        (asset : Asset) (amt : Int) (t : Nat),
      env.swaps = [] → seller ≠ buyer → 0 < t →
      env.transferOk asset.contract buyer env.contractAddress amt false =
        true →
      ((AtomicSwapEngine.get_swap_by_transaction
          (AtomicSwapEngine.deposit_to_escrow
            { (AtomicSwapEngine.initialize_swap env txid seller buyer nft
                tokenId asset amt).2 with timestamp := t }
            txid buyer asset amt false).2 txid).map (fun s => s.state)) =
        .ok (if 0 < env.timestamp then SwapState.Ready
             else SwapState.BuyerFunded)) := by
  constructor
  · intro env txid dep asset amt nft s' hnd hw hok hs'
    cases hg0 : AtomicSwapEngine.get_swap_by_transaction env txid with
    | error e =>
      have : (AtomicSwapEngine.deposit_to_escrow env txid dep asset amt
          nft).1 = .error e := by
        unfold AtomicSwapEngine.deposit_to_escrow
        rw [hg0]
      rw [this] at hok
      exact absurd hok (by simp)
    | ok s0 =>
      have hstore := deposit_stores_updated_swap env txid dep asset amt nft s0
        hnd hw hg0 hok
      rw [hstore] at hs'
      have hs'' : s' = AtomicSwapEngine.update_swap_state
          { s0 with
            seller_escrow := AtomicSwapEngine.stamp_first s0.seller_escrow dep
              asset.contract env.timestamp
            buyer_escrow := AtomicSwapEngine.stamp_first s0.buyer_escrow dep
              asset.contract env.timestamp } := by
        have : Except.ok (ε := SettlementError) _ = Except.ok s' := hs'
        injection this with h1
        exact h1.symm
      subst hs''
      obtain ⟨he1, he2, h3, h4, h5, h6⟩ := update_swap_state_spec
        { s0 with
          seller_escrow := AtomicSwapEngine.stamp_first s0.seller_escrow dep
            asset.contract env.timestamp
          buyer_escrow := AtomicSwapEngine.stamp_first s0.buyer_escrow dep
            asset.contract env.timestamp }
      rw [he1, he2]
      exact ⟨h3, h4, h5, h6⟩
  · intro env txid seller buyer nft tokenId asset amt t hempty hsb ht htr
    exact buyer_only_deposit_state env txid seller buyer nft tokenId asset amt
      t hempty hsb ht htr

/-- Witness for C4's amended theorem at concrete inputs: the swap of
`envWithSwap7` (created at time 100) becomes `Ready` after the buyer-only
deposit of `c4_counterexample` — matching its stamps — and the same
buyer-only deposit on a swap created at ledger time 0 (`zeroTsEnv`) yields
`BuyerFunded`. -/
theorem c4_witness :
    ((AtomicSwapEngine.update_swap_state
        { swap7 with
          seller_escrow := AtomicSwapEngine.stamp_first swap7.seller_escrow 4
            usdAsset.contract 200
          buyer_escrow := AtomicSwapEngine.stamp_first swap7.buyer_escrow 4
            usdAsset.contract 200 }).state = SwapState.Ready ↔
      (∀ h ∈ (AtomicSwapEngine.update_swap_state
        { swap7 with
          seller_escrow := AtomicSwapEngine.stamp_first swap7.seller_escrow 4
            usdAsset.contract 200
          buyer_escrow := AtomicSwapEngine.stamp_first swap7.buyer_escrow 4
            usdAsset.contract 200 }).seller_escrow, 0 < h.deposited_at) ∧
      (∀ h ∈ (AtomicSwapEngine.update_swap_state
        { swap7 with
          seller_escrow := AtomicSwapEngine.stamp_first swap7.seller_escrow 4
            usdAsset.contract 200
          buyer_escrow := AtomicSwapEngine.stamp_first swap7.buyer_escrow 4
            usdAsset.contract 200 }).buyer_escrow, 0 < h.deposited_at)) ∧
    ((AtomicSwapEngine.get_swap_by_transaction
        (AtomicSwapEngine.deposit_to_escrow
          { (AtomicSwapEngine.initialize_swap zeroTsEnv 7 3 4 5 9 usdAsset
              1000).2 with timestamp := 50 }
          7 4 usdAsset 1000 false).2 7).map (fun s => s.state)) =
      .ok SwapState.BuyerFunded := by
  constructor
  · have h := (c4_amended_state_recompute.1 envDeposit 7 4 usdAsset 1000 false
      (AtomicSwapEngine.update_swap_state
        { swap7 with
          seller_escrow := AtomicSwapEngine.stamp_first swap7.seller_escrow 4
            usdAsset.contract 200
          buyer_escrow := AtomicSwapEngine.stamp_first swap7.buyer_escrow 4
            usdAsset.contract 200 })
      (by decide) (by decide) rfl rfl).1
    exact h
  · have h := c4_amended_state_recompute.2 zeroTsEnv 7 3 4 5 9 usdAsset 1000
      50 rfl (by decide) (by decide) rfl
    simpa using h

/-- The distribution loop of `distribute_royalties`: when the checked sum of
the amounts whose transfers succeed is defined, the loop returns it — having
continued past every failed transfer — together with the conjunction of the
incoming success flag and per-leg success. -/
theorem distribute_loop_spec (l : List (Address × Int)) : ∀ (env : Env)
    (pc : Address) (total : Int) (success : Bool) (T : Int),
    checkedSumAux total ((l.filter
      (fun p => env.transferOk pc env.contractAddress p.1 p.2 false)).map
        Prod.snd) = some T →
    (RoyaltyDistributor.distribute_loop env pc l total success).1 =
      .ok (T, success && l.all
        (fun p => env.transferOk pc env.contractAddress p.1 p.2 false)) := by
  induction l with
  | nil =>
    intro env pc total success T hsum
    simp only [List.filter_nil, List.map_nil, checkedSumAux] at hsum
    injection hsum with hsum
    subst hsum
    simp [RoyaltyDistributor.distribute_loop]
  | cons p t ih =>
    intro env pc total success T hsum
    obtain ⟨a, x⟩ := p
    by_cases hc : env.transferOk pc env.contractAddress a x false = true
    · rw [List.filter_cons_of_pos (by simpa using hc)] at hsum
      simp only [List.map_cons, checkedSumAux] at hsum
      have hbnd : I128_MIN ≤ total + x ∧ total + x ≤ I128_MAX := by
        by_contra hb
        rw [if_neg hb] at hsum
        exact Option.noConfusion hsum
      rw [if_pos hbnd] at hsum
      simp only [RoyaltyDistributor.distribute_loop,
        asset_utils.transfer_tokens, hc, if_true, math_utils.safe_add,
        if_pos hbnd]
      have := ih { env with transfers := env.transfers ++
          [⟨pc, env.contractAddress, a, x, false⟩] } pc (total + x) success T
        (by simpa using hsum)
      simpa [hc] using this
    · have hc' : env.transferOk pc env.contractAddress a x false = false := by
        cases h : env.transferOk pc env.contractAddress a x false
        · rfl
        · exact absurd h hc
      rw [List.filter_cons_of_neg (by simpa using hc')] at hsum
      simp only [RoyaltyDistributor.distribute_loop,
        asset_utils.transfer_tokens, hc', Bool.false_eq_true, if_false]
      have := ih env pc total false T hsum
      simpa [hc'] using this

/-- Claim C9: in `distribute_royalties`, a failed individual transfer neither
aborts the remaining distributions nor makes the call return an error: the
loop still accumulates exactly the amounts of the successful legs (here `T`,
the checked sum over the legs whose transfer succeeds), the call returns a
`DistributionResult`, and its `distribution_success` flag is `false` exactly
when at least one leg's transfer failed. -/
theorem c9_distribute_royalties_partial_failure (env : Env) (txid : Nat)
    (rd : RoyaltyDistribution) (asset : Asset) (T : Int)
    (hsum : checkedSum ((rd.amounts.filter
      (fun p => env.transferOk asset.contract env.contractAddress p.1 p.2
        false)).map Prod.snd) = some T) :
    (RoyaltyDistributor.distribute_loop env asset.contract rd.amounts 0
        true).1 = .ok (T, rd.amounts.all
      (fun p => env.transferOk asset.contract env.contractAddress p.1 p.2
        false)) ∧
    (RoyaltyDistributor.distribute_royalties env txid rd asset).1.map
        (fun r => r.distribution_success) = .ok (rd.amounts.all
      (fun p => env.transferOk asset.contract env.contractAddress p.1 p.2
        false)) ∧
    ((RoyaltyDistributor.distribute_royalties env txid rd asset).1.map
        (fun r => r.distribution_success) = .ok false ↔
      ∃ p ∈ rd.amounts,
        env.transferOk asset.contract env.contractAddress p.1 p.2 false =
          false) := by
  have hloop := distribute_loop_spec rd.amounts env asset.contract 0 true T hsum
  rw [Bool.true_and] at hloop
  have hdist : (RoyaltyDistributor.distribute_royalties env txid rd asset).1.map
      (fun r => r.distribution_success) = .ok (rd.amounts.all
        (fun p => env.transferOk asset.contract env.contractAddress p.1 p.2
          false)) := by
    unfold RoyaltyDistributor.distribute_royalties
    rcases hl : RoyaltyDistributor.distribute_loop env asset.contract
        rd.amounts 0 true with ⟨r, env1⟩
    rw [hl] at hloop
    simp only at hloop
    subst hloop
    rfl
  refine ⟨hloop, hdist, ?_⟩
  rw [hdist]
  constructor
  · intro h
    have hall : rd.amounts.all (fun p => env.transferOk asset.contract
        env.contractAddress p.1 p.2 false) = false := Except.ok.inj h
    obtain ⟨p, hp, hnp⟩ := List.all_eq_false.mp hall
    exact ⟨p, hp, by simpa using hnp⟩
  · intro ⟨p, hp, hnp⟩
    rw [List.all_eq_false.mpr ⟨p, hp, by simp [hnp]⟩]

/-- Claim C6: for valid sale-creation inputs (validations pass, royalty info
resolvable, timing in bounds), `create_sale` returns the allocated transaction
id, and `get_sale` on that id immediately afterwards returns a record in
state `Pending` with `expires_at = created_at + duration_seconds`. -/
theorem c6_create_sale_get_sale_pending_expiry (env : Env)
    (seller nft : Address) (tokenId : Nat) (price : Int) (currency : Asset)
    (duration : Nat) (ri : RoyaltyInfo)
    (hguard : (seller, "create_sale") ∉ env.guards)
    (hav : env.assetValid currency = true)
    (hnv : env.nftContractValid nft = true)
    (hov : env.ownsNft nft tokenId seller = true)
    (hroy : RoyaltyDistributor.get_royalty_info env nft tokenId = .ok ri)
    (hb : env.timestamp + duration < U64_MOD)
    (hd : duration ≤ 2592000) :
    (MarketplaceSettlement.create_sale env seller nft tokenId price currency
        duration).1 = .ok env.nextSaleId ∧
    (MarketplaceSettlement.get_sale
        (MarketplaceSettlement.create_sale env seller nft tokenId price
          currency duration).2 env.nextSaleId).map
      (fun s => (s.state, s.created_at, s.expires_at)) =
      .ok (TransactionState.Pending, env.timestamp,
        env.timestamp + duration) := by
  have hmod : (env.timestamp + duration) % U64_MOD = env.timestamp + duration :=
    Nat.mod_eq_of_lt hb
  have h1 : env.timestamp ≤ env.timestamp + duration := Nat.le_add_right _ _
  have h2 : env.timestamp + duration - env.timestamp ≤ 2592000 := by
    simpa [Nat.add_sub_cancel_left] using hd
  have hroy' : ∀ g, RoyaltyDistributor.get_royalty_info
      { env with guards := g } nft tokenId = .ok ri := fun _ => hroy
  constructor <;>
    simp [MarketplaceSettlement.create_sale, ReentrancyGuard.execute, hguard,
      MarketplaceSettlement.get_sale, SaleTransactionStore.get,
      SaleTransactionStore.put, SaleTransactionStore.next_id,
      time_utils.validate_transaction_timing,
      RoyaltyDistributor.calculate_royalties, hroy', FeeManager.calculate_fee,
      AtomicSwapEngine.initialize_swap, AtomicSwapEngine.next_swap_id,
      AtomicSwapEngine.store_swap, hav, hnv, hov, hmod, h1, h2, hd,
      kget_kset_self, Except.map]

/-- Witness for C6 at a concrete input: on `royEnv` (royalty info stored),
seller 3 lists NFT (contract 5, token 7) for 1000 USD with a 600-second
duration: `create_sale` returns id 1 and `get_sale 1` is `Pending` with
`expires_at = 100 + 600`. -/
theorem c6_witness :
    (MarketplaceSettlement.create_sale royEnv 3 5 7 1000 usdAsset 600).1 =
      .ok 1 ∧
    (MarketplaceSettlement.get_sale
        (MarketplaceSettlement.create_sale royEnv 3 5 7 1000 usdAsset
          600).2 1).map (fun s => (s.state, s.created_at, s.expires_at)) =
      .ok (TransactionState.Pending, 100, 700) := by
  have h := c6_create_sale_get_sale_pending_expiry royEnv 3 5 7 1000 usdAsset
    600 ⟨5, 7, 10, 250, 0⟩ (by simp [royEnv, sampleEnv]) rfl rfl rfl rfl
    (by decide) (by decide)
  exact h

/-- Claim C1: `create_sale` passes the seller as the placeholder buyer to
`initialize_swap`, so the holder recorded on the buyer escrow leg of the
created swap equals the seller; consequently `perform_atomic_swap` (the body
of `execute_swap`) transfers the NFT leg to that buyer-escrow holder — the
seller — and not to the executing buyer, who is a different address. -/
theorem c1_create_sale_nft_leg_goes_to_seller (env envA : Env)
    (seller nft : Address) (tokenId : Nat) (price : Int) (currency : Asset)
    (duration : Nat) (ri : RoyaltyInfo) (buyer : Address)
    (hguard : (seller, "create_sale") ∉ env.guards)
    (hav : env.assetValid currency = true)
    (hnv : env.nftContractValid nft = true)
    (hov : env.ownsNft nft tokenId seller = true)
    (hroy : RoyaltyDistributor.get_royalty_info env nft tokenId = .ok ri)
    (hb : env.timestamp + duration < U64_MOD)
    (hd : duration ≤ 2592000)
    (hT : ∀ c f t a n, envA.transferOk c f t a n = true)
    (hbs : buyer ≠ seller) :
    kget (MarketplaceSettlement.create_sale env seller nft tokenId price
        currency duration).2.swaps env.nextSwap = some
      { swap_id := env.nextSwap
        transaction_id := env.nextSaleId
        seller_escrow := [⟨env.nextSaleId, seller, ⟨nft, "NFT"⟩,
          (tokenId : Int), true, env.timestamp, none⟩]
        buyer_escrow := [⟨env.nextSaleId, seller, currency, price, false,
          env.timestamp, none⟩]
        state := .Pending
        created_at := env.timestamp
        executed_at := none } ∧
    ({ swap_id := env.nextSwap
       transaction_id := env.nextSaleId
       seller_escrow := [⟨env.nextSaleId, seller, ⟨nft, "NFT"⟩,
         (tokenId : Int), true, env.timestamp, none⟩]
       buyer_escrow := [⟨env.nextSaleId, seller, currency, price, false,
         env.timestamp, none⟩]
       state := .Pending
       created_at := env.timestamp
       executed_at := none } : AtomicSwap).buyer_escrow.map
      (fun h => h.holder) = [seller] ∧
    (AtomicSwapEngine.perform_atomic_swap envA
      { swap_id := env.nextSwap
        transaction_id := env.nextSaleId
        seller_escrow := [⟨env.nextSaleId, seller, ⟨nft, "NFT"⟩,
          (tokenId : Int), true, env.timestamp, none⟩]
        buyer_escrow := [⟨env.nextSaleId, seller, currency, price, false,
          env.timestamp, none⟩]
        state := .Pending
        created_at := env.timestamp
        executed_at := none }).1 = .ok () ∧
    (AtomicSwapEngine.perform_atomic_swap envA
      { swap_id := env.nextSwap
        transaction_id := env.nextSaleId
        seller_escrow := [⟨env.nextSaleId, seller, ⟨nft, "NFT"⟩,
          (tokenId : Int), true, env.timestamp, none⟩]
        buyer_escrow := [⟨env.nextSaleId, seller, currency, price, false,
          env.timestamp, none⟩]
        state := .Pending
        created_at := env.timestamp
        executed_at := none }).2.transfers = envA.transfers ++
      [⟨nft, envA.contractAddress, seller, (tokenId : Int), true⟩,
       ⟨currency.contract, envA.contractAddress, seller, price, false⟩] ∧
    seller ≠ buyer := by
  have hmod : (env.timestamp + duration) % U64_MOD = env.timestamp + duration :=
    Nat.mod_eq_of_lt hb
  have h1 : env.timestamp ≤ env.timestamp + duration := Nat.le_add_right _ _
  have h2 : env.timestamp + duration - env.timestamp ≤ 2592000 := by
    simpa [Nat.add_sub_cancel_left] using hd
  have hroy' : ∀ g, RoyaltyDistributor.get_royalty_info
      { env with guards := g } nft tokenId = .ok ri := fun _ => hroy
  refine ⟨?_, rfl, ?_, ?_, Ne.symm hbs⟩
  · have hcs : (MarketplaceSettlement.create_sale env seller nft tokenId price
        currency duration).2.swaps = kset env.swaps env.nextSwap
      { swap_id := env.nextSwap
        transaction_id := env.nextSaleId
        seller_escrow := [⟨env.nextSaleId, seller, ⟨nft, "NFT"⟩,
          (tokenId : Int), true, env.timestamp, none⟩]
        buyer_escrow := [⟨env.nextSaleId, seller, currency, price, false,
          env.timestamp, none⟩]
        state := .Pending
        created_at := env.timestamp
        executed_at := none } := by
      simp [MarketplaceSettlement.create_sale, ReentrancyGuard.execute, hguard,
        SaleTransactionStore.put, SaleTransactionStore.next_id,
        time_utils.validate_transaction_timing,
        RoyaltyDistributor.calculate_royalties, hroy',
        FeeManager.calculate_fee, AtomicSwapEngine.initialize_swap,
        AtomicSwapEngine.next_swap_id, AtomicSwapEngine.store_swap, hav, hnv,
        hov, hmod, h1, h2, hd]
    rw [hcs, kget_kset_self]
  · simp [AtomicSwapEngine.perform_atomic_swap,
      AtomicSwapEngine.perform_seller_leg, AtomicSwapEngine.perform_buyer_leg,
      AtomicSwapEngine.transfer_from_escrow, asset_utils.transfer_nft,
      asset_utils.transfer_tokens, hT]
  · simp [AtomicSwapEngine.perform_atomic_swap,
      AtomicSwapEngine.perform_seller_leg, AtomicSwapEngine.perform_buyer_leg,
      AtomicSwapEngine.transfer_from_escrow, asset_utils.transfer_nft,
      asset_utils.transfer_tokens, hT]

/-- Witness for C1 at a concrete input: the sale created on `royEnv` by
seller 3 stores a swap whose buyer-escrow holder is 3 (the seller), and
`perform_atomic_swap` on that swap (with every transfer capability
succeeding, as in `sampleEnv`) sends both the NFT and the payment to
address 3. -/
theorem c1_witness :
    kget (MarketplaceSettlement.create_sale royEnv 3 5 7 1000 usdAsset
        600).2.swaps 1 = some
      { swap_id := 1
        transaction_id := 1
        seller_escrow := [⟨1, 3, ⟨5, "NFT"⟩, 7, true, 100, none⟩]
        buyer_escrow := [⟨1, 3, usdAsset, 1000, false, 100, none⟩]
        state := .Pending
        created_at := 100
        executed_at := none } ∧
    (AtomicSwapEngine.perform_atomic_swap sampleEnv
      { swap_id := 1
        transaction_id := 1
        seller_escrow := [⟨1, 3, ⟨5, "NFT"⟩, 7, true, 100, none⟩]
        buyer_escrow := [⟨1, 3, usdAsset, 1000, false, 100, none⟩]
        state := .Pending
        created_at := 100
        executed_at := none }).2.transfers =
      [⟨5, 999, 3, 7, true⟩, ⟨20, 999, 3, 1000, false⟩] := by
  have h := c1_create_sale_nft_leg_goes_to_seller royEnv sampleEnv 3 5 7 1000
    usdAsset 600 ⟨5, 7, 10, 250, 0⟩ 4 (by simp [royEnv, sampleEnv]) rfl rfl
    rfl rfl (by decide) (by decide) (fun _ _ _ _ _ => rfl) (by decide)
  exact ⟨h.1, h.2.2.2.1⟩

/-- Witness for C9 at a concrete input: on `failTwoEnv` (transfers to
recipient 2 fail) with `triDist` (amounts 10, 20, 30), the loop returns the
sum 40 of the two successful legs with the success flag cleared, and the call
still returns a `DistributionResult` with `distribution_success = false`. -/
theorem c9_witness :
    (RoyaltyDistributor.distribute_loop failTwoEnv usdAsset.contract
        triDist.amounts 0 true).1 = .ok (40, false) ∧
    (RoyaltyDistributor.distribute_royalties failTwoEnv 7 triDist
        usdAsset).1.map (fun r => r.distribution_success) = .ok false := by
  have h := c9_distribute_royalties_partial_failure failTwoEnv 7 triDist
    usdAsset 40 (by decide)
  have hall : triDist.amounts.all (fun p => failTwoEnv.transferOk
      usdAsset.contract failTwoEnv.contractAddress p.1 p.2 false) = false := by
    decide
  constructor
  · have h1 := h.1
    rw [hall] at h1
    exact h1
  · have h2 := h.2.1
    rw [hall] at h2
    exact h2

/-- Witness for C10's amended theorem at concrete inputs: on `envAdmin`,
cancelling swap 7 as party 3 stores it as `Failed`, while both
emergency-withdraw operations leave the swap map of `envAdmin` untouched. -/
theorem c10_witness :
    ((AtomicSwapEngine.get_swap_by_transaction
        (AtomicSwapEngine.cancel_swap envAdmin 7 3).2 7).map
      (fun s => s.state)) = .ok SwapState.Failed ∧
    (AtomicSwapEngine.emergency_withdraw envAdmin 7 99 []).2.swaps =
      envAdmin.swaps ∧
    (MarketplaceSettlement.emergency_withdraw envAdmin 7 [] 99).2.swaps =
      envAdmin.swaps :=
  ⟨c10_amended_cancel_failed_emergency_unchanged.1 envAdmin 7 3 (by decide)
      (by decide) rfl,
   c10_amended_cancel_failed_emergency_unchanged.2.1 envAdmin 7 99 [],
   c10_amended_cancel_failed_emergency_unchanged.2.2 envAdmin 7 [] 99⟩

end NFTopia
